import Mathlib

/-!
Shallow embedding of the paperdink2trmnl firmware client
(TRMNLClient in trmnl_client.cpp, PaperdInkHardware in
paperdink_hardware.cpp, the main-loop sleep logic, and the constants of
include/config.h), together with theorems settling the specification
claims about buffer sizing, retry policy, registration, content refresh,
image routing and sleep durations.
-/

namespace Paperdink

/-! Constants from include/config.h. -/

def DISPLAY_WIDTH : Nat := 400

def DISPLAY_HEIGHT : Nat := 300

def MAX_IMAGE_SIZE : Nat := 50000

def DEEP_SLEEP_DURATION_SECONDS : Int := 1800

def CACHE_ENABLED : Bool := true

/-! ## Adaptive buffer sizing (TRMNLClient::downloadImageAutoAlloc)

The buffer is sized only after the response headers arrived.
contentLength is the int returned by httpClient.getSize() (negative or
zero when unknown); freeHeap is hardware->getFreeHeap(). -/

/-- First candidate size: the exact content length when it is known and
under MAX_IMAGE_SIZE, otherwise a conservative 64 KiB fallback. -/
def allocSizeInitial (contentLength : Int) : Nat :=
  if 0 < contentLength ∧ contentLength < (MAX_IMAGE_SIZE : Int) then contentLength.toNat
  else 65536

/-- Final allocation size after the free-heap check: when the candidate
plus a 32 KiB margin exceeds the free heap, the candidate becomes
freeHeap - 32768 (when freeHeap exceeds 64 KiB) or freeHeap / 2, and is
further capped to 65536 when it exceeds 65536 while the content length is
unknown or larger than the candidate. -/
def allocSizeFinal (contentLength : Int) (freeHeap : Nat) : Nat :=
  let allocSize := allocSizeInitial contentLength
  if allocSize + 32768 > freeHeap then
    let candidate := if freeHeap > 65536 then freeHeap - 32768 else freeHeap / 2
    if (contentLength ≤ 0 ∨ (candidate : Int) < contentLength) ∧ candidate > 65536 then 65536
    else candidate
  else allocSize

/-- The shrink rule as the specification words it, for comparison with
allocSizeFinal: an over-budget candidate is shrunk to free memory minus
the 32 KiB margin, floored at the 64 KiB fallback size when the
content-length was unknown. -/
def specAllocSize (contentLength : Int) (freeHeap : Nat) : Nat :=
  let candidate := allocSizeInitial contentLength
  if candidate + 32768 > freeHeap then
    if contentLength ≤ 0 then max (freeHeap - 32768) 65536
    else freeHeap - 32768
  else candidate

/-! ## HTTP retry loops (TRMNLClient::callSetupAPI / callDisplayAPI)

Both API calls run the same for-loop over attempts 1..3: issue a GET,
stop on HTTP 200 or on a non-retryable code, otherwise sleep
1000 ms x attempt and try again.  responses gives the result code of the
GET on each attempt (negative codes are transport failures). -/

/-- Retry decision of callSetupAPI, written in the source as two separate
branches: transport failure (negative code) or HTTP 5xx. -/
def setupRetryable (code : Int) : Bool :=
  if code < 0 then true
  else if 500 ≤ code then true
  else false

/-- Retry decision of callDisplayAPI, written in the source as a single
disjunction: transport failure or HTTP 5xx. -/
def displayRetryable (code : Int) : Bool :=
  decide (code < 0) || decide (500 ≤ code)

/-- The shared retry for-loop.  Arguments: the retry decision, the
per-attempt result codes, the current attempt index, the remaining
attempts, the backoff delays recorded so far, and the last result code.
Returns the final code, the number of attempts issued, and the backoff
delays (milliseconds) in order. -/
def httpRetryGo (retryable : Int → Bool) (responses : Nat → Int) :
    Nat → Nat → List Nat → Int → Int × Nat × List Nat
  | attempt, 0, delays, lastCode => (lastCode, attempt - 1, delays)
  | attempt, fuel + 1, delays, _ =>
    let code := responses attempt
    if code = 200 then (code, attempt, delays)
    else if retryable code then
      httpRetryGo retryable responses (attempt + 1) fuel (delays ++ [1000 * attempt]) code
    else (code, attempt, delays)

/-- maxRetries in both API calls. -/
def maxRetries : Nat := 3

/-- The retry loop of callSetupAPI. -/
def httpRetrySetup (responses : Nat → Int) : Int × Nat × List Nat :=
  httpRetryGo setupRetryable responses 1 maxRetries [] (-1)

/-- The retry loop of callDisplayAPI. -/
def httpRetryDisplay (responses : Nat → Int) : Int × Nat × List Nat :=
  httpRetryGo displayRetryable responses 1 maxRetries [] (-1)

/-! ## Client state (fields of class TRMNLClient plus the persisted
key-value entries it owns).

The kv fields model the Preferences entries written through
hardware->saveString / saveInt; the plain fields are the in-memory
members. -/

/-- DeviceState enum from trmnl_client.h. -/
inductive DeviceState
  | uninitialized
  | wifiSetup
  | deviceSetup
  | operational
  | error
  | offline
deriving DecidableEq, Repr

structure ClientState where
  currentState : DeviceState
  apiKey : String
  friendlyId : String
  refreshRate : Int
  lastImageFilename : String
  consecutiveErrors : Nat
  lastError : String
  kvApiKey : String
  kvFriendlyId : String
  kvRefreshRate : Int
deriving DecidableEq, Repr

/-- TRMNLClient::isDeviceRegistered: both identity strings non-empty. -/
def isDeviceRegistered (st : ClientState) : Bool :=
  decide (0 < st.apiKey.length) && decide (0 < st.friendlyId.length)

/-- TRMNLClient::setRefreshRate: set the member and persist it. -/
def setRefreshRate (st : ClientState) (seconds : Int) : ClientState :=
  { st with refreshRate := seconds, kvRefreshRate := seconds }

/-- TRMNLClient::clearDeviceRegistration: blank both identity members and
their persisted copies. -/
def clearDeviceRegistration (st : ClientState) : ClientState :=
  { st with apiKey := "", friendlyId := "", kvApiKey := "", kvFriendlyId := "" }

/-- TRMNLClient::saveDeviceInfo: persist apiKey, friendlyId and the
refresh rate. -/
def saveDeviceInfo (st : ClientState) : ClientState :=
  { st with kvApiKey := st.apiKey, kvFriendlyId := st.friendlyId,
            kvRefreshRate := st.refreshRate }

/-- Preferences::getInt as used by loadDeviceInfo: the stored value when
present, the supplied default otherwise. -/
def loadInt (stored : Option Int) (defaultValue : Int) : Int :=
  stored.getD defaultValue

/-- The refresh-rate read in TRMNLClient::loadDeviceInfo (no build-time
overrides): defaults to DEEP_SLEEP_DURATION_SECONDS when absent. -/
def loadRefreshRate (stored : Option Int) : Int :=
  loadInt stored DEEP_SLEEP_DURATION_SECONDS

/-! ## Display API call (TRMNLClient::callDisplayAPI)

The JSON body is modelled field by field: an Option field is none when
the key is absent, mirroring the ArduinoJson pipe-default operator. -/

/-- Fields of the /api/display JSON body that the code reads. -/
structure DisplayJson where
  status : Option Int
  image_url : Option String
  url : Option String
  image : Option String
  filename : Option String
  update_firmware : Option Bool
  firmware_url : Option String
  refresh_rate : Option Int
  reset_firmware : Option Bool
  error : Option String
deriving DecidableEq, Repr

/-- struct DisplayResponse from trmnl_client.h. -/
structure DisplayResponse where
  status : Int
  imageUrl : String
  filename : String
  updateFirmware : Bool
  firmwareUrl : String
  refreshRate : Int
  resetFirmware : Bool
  error : String
deriving DecidableEq, Repr

/-- TRMNLClient::callDisplayAPI over an abstract transport: wifiOk is
isWiFiConnected(), endpointUrl is base + /api/display, responses gives
the GET result per retry attempt, body the parsed JSON (none when
deserializeJson fails).  Returns the updated client state, the filled
DisplayResponse (none when the call bailed out before filling it) and the
boolean call result. -/
def callDisplayAPI (st : ClientState) (wifiOk : Bool) (endpointUrl : String)
    (responses : Nat → Int) (body : Option DisplayJson) :
    ClientState × Option DisplayResponse × Bool :=
  if ¬wifiOk ∨ st.apiKey.length = 0 then (st, none, false)
  else
    let httpResponseCode := (httpRetryDisplay responses).1
    if httpResponseCode = 200 then
      match body with
      | some j =>
        let imageUrl0 := j.image_url.getD ""
        let imageUrl1 := if imageUrl0.length = 0 then j.url.getD "" else imageUrl0
        let imageUrl2 := if imageUrl1.length = 0 then j.image.getD "" else imageUrl1
        let resp : DisplayResponse :=
          { status := j.status.getD 200
            imageUrl := imageUrl2
            filename := j.filename.getD ""
            updateFirmware := j.update_firmware.getD false
            firmwareUrl := j.firmware_url.getD ""
            refreshRate := j.refresh_rate.getD st.refreshRate
            resetFirmware := j.reset_firmware.getD false
            error := j.error.getD "" }
        let st1 := if resp.refreshRate ≠ st.refreshRate then setRefreshRate st resp.refreshRate
                   else st
        let success : Bool :=
          if resp.status = 200 ∨ (0 < resp.imageUrl.length ∧ resp.error.length = 0) then true
          else false
        let st2 := if resp.resetFirmware then clearDeviceRegistration st1 else st1
        (st2, some resp, success)
      | none =>
        (st, some { status := 200, imageUrl := endpointUrl, filename := "",
                    updateFirmware := false, firmwareUrl := "",
                    refreshRate := st.refreshRate, resetFirmware := false, error := "" },
         true)
    else (st, none, false)

/-! ## Setup API call (TRMNLClient::callSetupAPI) -/

/-- The api_key / friendly_id fields of a nested object ("device" or
"data") in the /api/setup JSON body. -/
structure SetupNested where
  api_key : Option String
  apiKey : Option String
  friendly_id : Option String
  friendlyId : Option String
deriving DecidableEq, Repr

/-- Fields of the /api/setup JSON body that the code reads. -/
structure SetupJson where
  status : Option Int
  success : Option Bool
  ok : Option Bool
  api_key : Option String
  apiKey : Option String
  friendly_id : Option String
  friendlyId : Option String
  device : SetupNested
  data : SetupNested
  image_url : Option String
  imageUrl : Option String
  filename : Option String
deriving DecidableEq, Repr

/-- struct SetupResponse from trmnl_client.h. -/
structure SetupResponse where
  status : Int
  apiKey : String
  friendlyId : String
  imageUrl : String
  filename : String
deriving DecidableEq, Repr

/-- TRMNLClient::callSetupAPI over an abstract transport.  Returns the
filled response (none when the call bailed out before parsing) and the
boolean call result. -/
def callSetupAPI (wifiOk : Bool) (responses : Nat → Int) (body : Option SetupJson) :
    Option SetupResponse × Bool :=
  if ¬wifiOk then (none, false)
  else
    let httpResponseCode := (httpRetrySetup responses).1
    if httpResponseCode = 200 then
      match body with
      | some j =>
        let okFlag := j.success.getD false || j.ok.getD false
        let parsedApiKey0 := (j.api_key <|> j.apiKey).getD ""
        let parsedApiKey :=
          if parsedApiKey0.length = 0 then
            (j.device.api_key <|> j.device.apiKey <|> j.data.api_key <|> j.data.apiKey).getD ""
          else parsedApiKey0
        let parsedFriendly0 := (j.friendly_id <|> j.friendlyId).getD ""
        let parsedFriendly :=
          if parsedFriendly0.length = 0 then
            (j.device.friendly_id <|> j.device.friendlyId <|>
             j.data.friendly_id <|> j.data.friendlyId).getD ""
          else parsedFriendly0
        let resp : SetupResponse :=
          { status := j.status.getD (if okFlag then 200 else 0)
            apiKey := parsedApiKey
            friendlyId := parsedFriendly
            imageUrl := (j.image_url <|> j.imageUrl).getD ""
            filename := j.filename.getD "" }
        let success : Bool :=
          if resp.status = 200 ∨ (0 < resp.apiKey.length ∧ 0 < resp.friendlyId.length) then true
          else false
        (some resp, success)
      | none => (none, false)
    else (none, false)

/-- TRMNLClient::registerDevice.  wifiOk stands for the connectToWiFi()
attempt succeeding; responses and body describe the setup API transport.
The Nat component counts the HTTP request attempts issued against the
setup endpoint (zero network calls when it stays 0). -/
def registerDevice (st : ClientState) (wifiOk : Bool)
    (responses : Nat → Int) (body : Option SetupJson) : ClientState × Bool × Nat :=
  if ¬wifiOk then
    ({ st with lastError := "WiFi connection failed" }, false, 0)
  else if isDeviceRegistered st then
    ({ st with currentState := .operational, consecutiveErrors := 0 }, true, 0)
  else
    let attempts := (httpRetrySetup responses).2.1
    match callSetupAPI wifiOk responses body with
    | (some resp, true) =>
      let st1 := saveDeviceInfo { st with apiKey := resp.apiKey, friendlyId := resp.friendlyId }
      ({ st1 with currentState := .operational, consecutiveErrors := 0 }, true, attempts)
    | _ =>
      ({ st with consecutiveErrors := st.consecutiveErrors + 1,
                 lastError := "Device registration failed" }, false, attempts)

/-! ## Image download (TRMNLClient::downloadImageAutoAlloc)

A single GET (no retries); delivered is the number of body bytes the
connection makes available before it closes, so the buffer-bound read
loop stores min(delivered, allocSize) bytes. -/

/-- Transport environment of one image download. -/
structure DlEnv where
  httpCode : Int
  contentLength : Int
  freeHeap : Nat
  mallocOk : Bool
  delivered : Nat
deriving DecidableEq, Repr

/-- Outcome of downloadImageAutoAlloc: success mirrors the boolean return,
bufferReturned says *outBuffer was handed to the caller, freed says the
function itself freed the buffer it had allocated. -/
structure DlResult where
  success : Bool
  bufferReturned : Bool
  freed : Bool
  bytesRead : Nat
  allocSize : Nat
deriving DecidableEq, Repr

/-- TRMNLClient::downloadImageAutoAlloc. -/
def downloadImageAutoAlloc (wifiOk : Bool) (imageUrl : String) (env : DlEnv) : DlResult :=
  if ¬wifiOk ∨ imageUrl.length = 0 then
    { success := false, bufferReturned := false, freed := false, bytesRead := 0, allocSize := 0 }
  else if env.httpCode ≠ 200 then
    { success := false, bufferReturned := false, freed := false, bytesRead := 0, allocSize := 0 }
  else
    let allocSize := allocSizeFinal env.contentLength env.freeHeap
    if ¬env.mallocOk then
      { success := false, bufferReturned := false, freed := false, bytesRead := 0,
        allocSize := allocSize }
    else
      let bytesRead := min env.delivered allocSize
      if 0 < env.contentLength ∧ (bytesRead : Int) ≠ env.contentLength ∧
         (bytesRead : Int) < env.contentLength then
        { success := false, bufferReturned := false, freed := true, bytesRead := bytesRead,
          allocSize := allocSize }
      else if bytesRead = 0 then
        { success := false, bufferReturned := false, freed := true, bytesRead := 0,
          allocSize := allocSize }
      else
        { success := true, bufferReturned := true, freed := false, bytesRead := bytesRead,
          allocSize := allocSize }

/-! ## Content refresh (TRMNLClient::updateContent) -/

/-- Observable effects of one updateContent invocation: the boolean
return, whether hardware->displayImage ran, and whether a cache write
happened. -/
structure UpdateFx where
  result : Bool
  displayed : Bool
  cacheWritten : Bool
deriving DecidableEq, Repr

/-- TRMNLClient::updateContent, composed from callDisplayAPI and
downloadImageAutoAlloc; sdOk is hardware->isSDCardAvailable() as checked
by cacheImage. -/
def updateContent (st : ClientState) (wifiConnected : Bool) (endpointUrl : String)
    (responses : Nat → Int) (body : Option DisplayJson) (env : DlEnv) (sdOk : Bool) :
    ClientState × UpdateFx :=
  if ¬wifiConnected then
    ({ st with currentState := .offline },
     { result := false, displayed := false, cacheWritten := false })
  else
    match callDisplayAPI st wifiConnected endpointUrl responses body with
    | (st1, some resp, true) =>
      if 0 < resp.imageUrl.length then
        let dl := downloadImageAutoAlloc wifiConnected resp.imageUrl env
        if dl.success then
          let cacheWritten := CACHE_ENABLED && decide (0 < resp.filename.length) && sdOk
          ({ st1 with lastImageFilename := resp.filename, consecutiveErrors := 0 },
           { result := true, displayed := true, cacheWritten := cacheWritten })
        else
          ({ st1 with lastError := "image download failed",
                      consecutiveErrors := st1.consecutiveErrors + 1 },
           { result := false, displayed := false, cacheWritten := false })
      else
        ({ st1 with lastError := "no imageUrl",
                    consecutiveErrors := st1.consecutiveErrors + 1 },
         { result := false, displayed := false, cacheWritten := false })
    | (st1, _, _) =>
      ({ st1 with lastError := "display API error",
                  consecutiveErrors := st1.consecutiveErrors + 1 },
       { result := false, displayed := false, cacheWritten := false })

/-! ## Image rendering (PaperdInkHardware::displayImage and the PNGdec
line callback pngDrawToEPD) -/

/-- What one displayImage call does with its buffer. -/
inductive DisplayOutcome
  | nothing
  | rawBitmap
  | decodeFailedPlaceholder
  | pngRendered
  | pngAborted
deriving DecidableEq, Repr

/-- pngDrawToEPD acceptance of one decoded source line: a line wider than
the 1024-sample temporary buffer returns 0, which stops the decode. -/
def pngDrawAccepts (lineWidth : Nat) : Bool :=
  !(decide (lineWidth > 1024))

/-- PaperdInkHardware::displayImage routing and error handling.
isNull models a null imageData pointer; openOk the initial
s_png.openRAM result; srcWidth the decoded source line width handed to
pngDrawToEPD; decodeOk whether the per-page openRAM and decode succeed
apart from the line-width abort.  A raw full-frame 1-bit buffer
(imageSize = DISPLAY_WIDTH * DISPLAY_HEIGHT / 8) is drawn verbatim and
the PNG decoder is never invoked; only a failure of the initial openRAM
draws the decode-failed text placeholder, while a line-width abort or a
mid-decode error breaks out of the page loop with no placeholder. -/
def displayImage (isNull : Bool) (imageSize : Nat) (openOk : Bool)
    (srcWidth : Nat) (decodeOk : Bool) : DisplayOutcome :=
  if isNull ∨ imageSize = 0 then .nothing
  else if imageSize = DISPLAY_WIDTH * DISPLAY_HEIGHT / 8 then .rawBitmap
  else if ¬openOk then .decodeFailedPlaceholder
  else if pngDrawAccepts srcWidth && decodeOk then .pngRendered
  else .pngAborted

/-! ## Sleep durations (the two enterSleepMode variants in the main
sources) -/

/-- Sleep duration computed by the enterSleepMode variant that shows a
sleep screen first: the refresh rate floored at 300 seconds
("Minimum 5 minutes"). -/
def sleepDurationLegacyMain (refreshRate : Nat) : Nat :=
  if refreshRate < 300 then 300 else refreshRate

/-- Sleep duration computed by the enterSleepMode variant that keeps the
current frame on the panel through power-down: exactly the
server-provided refresh rate, with no floor. -/
def sleepDurationMain (refreshRate : Nat) : Nat :=
  refreshRate

/-! ## Helper lemmas -/

theorem displayRetryable_iff (c : Int) : displayRetryable c = true ↔ c < 0 ∨ 500 ≤ c := by
  simp [displayRetryable]

theorem retryable_same (c : Int) : setupRetryable c = displayRetryable c := by
  unfold setupRetryable displayRetryable
  split_ifs with h1 h2 <;> simp <;> omega

/-- Unfolding of the three-attempt retry loop into its finite case tree. -/
theorem httpRetryGo3 (retryable : Int → Bool) (r : Nat → Int) :
    httpRetryGo retryable r 1 3 [] (-1) =
      if r 1 = 200 then (r 1, 1, [])
      else if retryable (r 1) then
        if r 2 = 200 then (r 2, 2, [1000])
        else if retryable (r 2) then
          if r 3 = 200 then (r 3, 3, [1000, 2000])
          else if retryable (r 3) then (r 3, 3, [1000, 2000, 3000])
          else (r 3, 3, [1000, 2000])
        else (r 2, 2, [1000])
      else (r 1, 1, []) := rfl

theorem httpRetrySetup_eq_display (r : Nat → Int) : httpRetrySetup r = httpRetryDisplay r := by
  unfold httpRetrySetup httpRetryDisplay maxRetries
  rw [httpRetryGo3, httpRetryGo3]
  simp only [retryable_same]

/-! ## Claims -/

/-- C1, counterexample: with unknown content length and 60000 bytes of
free heap, the code allocates freeHeap / 2 = 30000 bytes — neither
freeHeap - 32768 = 27232 nor the 64 KiB floor the claim demands (the
specification-worded rule specAllocSize yields 65536 here). -/
theorem c1_shrink_counterexample :
    allocSizeFinal (-1) 60000 = 30000 ∧
    specAllocSize (-1) 60000 = 65536 ∧
    allocSizeFinal (-1) 60000 ≠ specAllocSize (-1) 60000 ∧
    allocSizeFinal (-1) 60000 ≠ 60000 - 32768 := by decide

/-- C1 (amended): a known content length under MAX_IMAGE_SIZE that fits
the heap budget is allocated exactly; otherwise the 64 KiB fallback is
used when it fits; when the candidate plus the 32 KiB margin exceeds the
free heap the candidate becomes freeHeap - 32768 when the free heap
exceeds 64 KiB and freeHeap / 2 otherwise (not floored at the fallback);
and the allocation never exceeds the free heap. -/
theorem c1_alloc_size_adaptation (cl : Int) (freeHeap : Nat) :
    (0 < cl → cl < (MAX_IMAGE_SIZE : Int) → cl.toNat + 32768 ≤ freeHeap →
      allocSizeFinal cl freeHeap = cl.toNat) ∧
    ((cl ≤ 0 ∨ (MAX_IMAGE_SIZE : Int) ≤ cl) → 98304 ≤ freeHeap →
      allocSizeFinal cl freeHeap = 65536) ∧
    (freeHeap < allocSizeInitial cl + 32768 →
      allocSizeFinal cl freeHeap =
        if 65536 < freeHeap then freeHeap - 32768 else freeHeap / 2) ∧
    allocSizeFinal cl freeHeap ≤ freeHeap := by
  refine ⟨?_, ?_, ?_, ?_⟩ <;>
    simp only [allocSizeFinal, allocSizeInitial, MAX_IMAGE_SIZE] <;>
    split_ifs <;> omega

/-- C1 witness: a 10000-byte content length with 100000 bytes free is
allocated exactly, and an unknown length with ample memory gets the
64 KiB fallback. -/
theorem c1_alloc_size_adaptation_witness :
    allocSizeFinal 10000 100000 = Int.toNat 10000 ∧ allocSizeFinal (-1) 200000 = 65536 :=
  ⟨(c1_alloc_size_adaptation 10000 100000).1 (by decide) (by decide) (by decide),
   (c1_alloc_size_adaptation (-1) 200000).2.1 (Or.inl (by decide)) (by decide)⟩

/-- C3, counterexample: a device already holding apiKey and friendlyId
whose WiFi connection attempt fails does not transition to Operational
(registerDevice returns false and leaves the state at deviceSetup),
although it still issues zero setup-API attempts. -/
theorem c3_wifi_failure_counterexample :
    (fun st : ClientState =>
      isDeviceRegistered st = true ∧
      (registerDevice st false (fun _ => 200) none).1.currentState ≠ DeviceState.operational ∧
      (registerDevice st false (fun _ => 200) none).2.1 = false ∧
      (registerDevice st false (fun _ => 200) none).2.2 = 0)
    { currentState := .deviceSetup, apiKey := "k", friendlyId := "f", refreshRate := 1800,
      lastImageFilename := "", consecutiveErrors := 0, lastError := "",
      kvApiKey := "k", kvFriendlyId := "f", kvRefreshRate := 1800 } := by
  decide

/-- C3 (amended): provided the WiFi connection step succeeds, invoking
registerDevice on a device whose apiKey and friendlyId are both
non-empty issues zero setup-API attempts and transitions directly to
Operational with the error counter reset. -/
theorem c3_registered_short_circuit (st : ClientState) (responses : Nat → Int)
    (body : Option SetupJson) (hreg : isDeviceRegistered st = true) :
    registerDevice st true responses body =
      ({ st with currentState := .operational, consecutiveErrors := 0 }, true, 0) := by
  simp [registerDevice, hreg]

/-- C3 witness: the short-circuit at a concrete registered state. -/
theorem c3_registered_short_circuit_witness :
    registerDevice
      { currentState := .deviceSetup, apiKey := "k", friendlyId := "f", refreshRate := 1800,
        lastImageFilename := "", consecutiveErrors := 2, lastError := "",
        kvApiKey := "k", kvFriendlyId := "f", kvRefreshRate := 1800 }
      true (fun _ => 500) none =
      ({ currentState := .operational, apiKey := "k", friendlyId := "f", refreshRate := 1800,
         lastImageFilename := "", consecutiveErrors := 0, lastError := "",
         kvApiKey := "k", kvFriendlyId := "f", kvRefreshRate := 1800 }, true, 0) :=
  c3_registered_short_circuit _ _ _ (by decide)

/-- C4, counterexample: a 100-byte buffer that opens as a PNG but whose
source scanline is 2000 samples wide aborts the decode and leaves the
page loop with no placeholder — it does not fall back to the
decode-failed text message the claim demands for this case. -/
theorem c4_wide_scanline_counterexample :
    displayImage false 100 true 2000 true = DisplayOutcome.pngAborted ∧
    displayImage false 100 true 2000 true ≠ DisplayOutcome.decodeFailedPlaceholder := by
  decide

/-- C4 (amended): on the PNG path, only a failure of the initial openRAM
clears the screen and draws the fixed decode-failed text; a source
scanline wider than the 1024-sample temporary buffer, or a mid-decode
error, aborts the paged render without drawing the placeholder. -/
theorem c4_decode_failure_fallback (imageSize srcWidth : Nat) (decodeOk : Bool)
    (hnz : imageSize ≠ 0) (hraw : imageSize ≠ DISPLAY_WIDTH * DISPLAY_HEIGHT / 8) :
    displayImage false imageSize false srcWidth decodeOk =
      DisplayOutcome.decodeFailedPlaceholder ∧
    (1024 < srcWidth ∨ decodeOk = false →
      displayImage false imageSize true srcWidth decodeOk = DisplayOutcome.pngAborted) := by
  constructor
  · simp [displayImage, hnz, hraw]
  · intro h
    rcases h with h | h
    · simp [displayImage, hnz, hraw, pngDrawAccepts, h]
    · simp [displayImage, hnz, hraw, pngDrawAccepts, h]

/-- C4 witness: the open-failure placeholder and the silent wide-scanline
abort at concrete inputs. -/
theorem c4_decode_failure_fallback_witness :
    displayImage false 100 false 50 true = DisplayOutcome.decodeFailedPlaceholder ∧
    displayImage false 100 true 2000 false = DisplayOutcome.pngAborted :=
  ⟨(c4_decode_failure_fallback 100 50 true (by decide) (by decide)).1,
   (c4_decode_failure_fallback 100 2000 false (by decide) (by decide)).2 (Or.inl (by decide))⟩

/-- C5, counterexample: the enterSleepMode variant that keeps the frame
through power-down sleeps exactly the server-provided refresh rate, so a
60-second refresh rate yields a 60-second sleep — below the 300-second
minimum the claim asserts. -/
theorem c5_no_floor_counterexample :
    sleepDurationMain 60 = 60 ∧ ¬ 300 ≤ sleepDurationMain 60 := by decide

/-- C5 (amended): only the legacy enterSleepMode variant floors the sleep
duration at 300 seconds; the variant that retains the displayed frame
uses the refresh rate unchanged; and with no persisted refresh rate
loadDeviceInfo defaults it to DEEP_SLEEP_DURATION_SECONDS = 1800. -/
theorem c5_sleep_duration (rr : Nat) :
    sleepDurationLegacyMain rr = max 300 rr ∧
    300 ≤ sleepDurationLegacyMain rr ∧
    sleepDurationMain rr = rr ∧
    loadRefreshRate none = 1800 := by
  refine ⟨?_, ?_, rfl, rfl⟩ <;> (unfold sleepDurationLegacyMain; split <;> omega)

/-- C9: a non-null buffer of exactly DISPLAY_WIDTH * DISPLAY_HEIGHT / 8 =
15000 bytes is drawn verbatim as the full-frame 1-bit bitmap with no PNG
decode attempted, and any other non-zero size is routed to the PNG
decode path. -/
theorem c9_raw_vs_png_routing (imageSize srcWidth : Nat) (openOk decodeOk : Bool) :
    (imageSize = DISPLAY_WIDTH * DISPLAY_HEIGHT / 8 →
      displayImage false imageSize openOk srcWidth decodeOk = DisplayOutcome.rawBitmap) ∧
    (imageSize ≠ DISPLAY_WIDTH * DISPLAY_HEIGHT / 8 → imageSize ≠ 0 →
      displayImage false imageSize openOk srcWidth decodeOk = DisplayOutcome.decodeFailedPlaceholder ∨
      displayImage false imageSize openOk srcWidth decodeOk = DisplayOutcome.pngRendered ∨
      displayImage false imageSize openOk srcWidth decodeOk = DisplayOutcome.pngAborted) ∧
    DISPLAY_WIDTH * DISPLAY_HEIGHT / 8 = 15000 := by
  refine ⟨?_, ?_, by decide⟩
  · intro h
    simp [displayImage, h, DISPLAY_WIDTH, DISPLAY_HEIGHT]
  · intro h hnz
    unfold displayImage
    split_ifs <;> simp_all

/-- C2: whenever the display-API JSON body carries reset_firmware = true
and the call reached a 200 response, callDisplayAPI clears the in-memory
and persisted apiKey and friendlyId before it returns, regardless of the
values of every other field of the body. -/
theorem c2_reset_firmware_clears_registration (st : ClientState) (endpointUrl : String)
    (responses : Nat → Int) (j : DisplayJson)
    (hkey : 0 < st.apiKey.length)
    (hcode : (httpRetryDisplay responses).1 = 200)
    (hreset : j.reset_firmware = some true) :
    (callDisplayAPI st true endpointUrl responses (some j)).1.apiKey = "" ∧
    (callDisplayAPI st true endpointUrl responses (some j)).1.friendlyId = "" ∧
    (callDisplayAPI st true endpointUrl responses (some j)).1.kvApiKey = "" ∧
    (callDisplayAPI st true endpointUrl responses (some j)).1.kvFriendlyId = "" := by
  have hne : st.apiKey.length ≠ 0 := by omega
  simp only [callDisplayAPI, hcode, hreset]
  simp [hne, clearDeviceRegistration, setRefreshRate]

/-- C2 witness: a concrete reset_firmware response clears a concrete
registered state. -/
theorem c2_reset_firmware_clears_registration_witness :
    (fun r =>
      r.1.apiKey = "" ∧ r.1.friendlyId = "" ∧ r.1.kvApiKey = "" ∧ r.1.kvFriendlyId = "")
    (callDisplayAPI
      { currentState := .operational, apiKey := "k", friendlyId := "f", refreshRate := 1800,
        lastImageFilename := "", consecutiveErrors := 0, lastError := "",
        kvApiKey := "k", kvFriendlyId := "f", kvRefreshRate := 1800 }
      true "https://usetrmnl.com/api/display" (fun _ => 200)
      (some { status := some 200, image_url := some "https://img.example/i.png", url := none,
              image := none, filename := some "i.png", update_firmware := some false,
              firmware_url := none, refresh_rate := some 900, reset_firmware := some true,
              error := none })) :=
  c2_reset_firmware_clears_registration _ _ _ _ (by decide) (by decide) (by decide)

/-- C8: a 200 display-API response whose body fails to parse as JSON does
not fail the call — the endpoint URL itself becomes the image resource
and the descriptor carries status 200, empty filename and error, false
firmware flags and the current refresh rate, with the client state
untouched and the call returning success. -/
theorem c8_non_json_treated_as_image (st : ClientState) (endpointUrl : String)
    (responses : Nat → Int)
    (hkey : 0 < st.apiKey.length)
    (hcode : (httpRetryDisplay responses).1 = 200) :
    callDisplayAPI st true endpointUrl responses none =
      (st, some { status := 200, imageUrl := endpointUrl, filename := "",
                  updateFirmware := false, firmwareUrl := "",
                  refreshRate := st.refreshRate, resetFirmware := false, error := "" },
       true) := by
  have hne : st.apiKey.length ≠ 0 := by omega
  simp [callDisplayAPI, hcode, hne]

/-- C8 witness: the non-JSON fallback at a concrete state. -/
theorem c8_non_json_treated_as_image_witness :
    callDisplayAPI
      { currentState := .operational, apiKey := "k", friendlyId := "f", refreshRate := 1800,
        lastImageFilename := "", consecutiveErrors := 0, lastError := "",
        kvApiKey := "k", kvFriendlyId := "f", kvRefreshRate := 1800 }
      true "https://usetrmnl.com/api/display" (fun _ => 200) none =
      ({ currentState := .operational, apiKey := "k", friendlyId := "f", refreshRate := 1800,
         lastImageFilename := "", consecutiveErrors := 0, lastError := "",
         kvApiKey := "k", kvFriendlyId := "f", kvRefreshRate := 1800 },
       some { status := 200, imageUrl := "https://usetrmnl.com/api/display", filename := "",
              updateFirmware := false, firmwareUrl := "", refreshRate := 1800,
              resetFirmware := false, error := "" },
       true) :=
  c8_non_json_treated_as_image _ _ _ (by decide) (by decide)

/-- C10: when the display API call succeeds but the parsed image URL is
empty, updateContent returns false, records the error text
"no imageUrl", increments the consecutive-error counter and neither
displays nor writes the cache. -/
theorem c10_empty_image_url_is_failure (st st1 : ClientState) (endpointUrl : String)
    (responses : Nat → Int) (body : Option DisplayJson) (env : DlEnv) (sdOk : Bool)
    (resp : DisplayResponse)
    (happi : callDisplayAPI st true endpointUrl responses body = (st1, some resp, true))
    (hurl : resp.imageUrl.length = 0) :
    updateContent st true endpointUrl responses body env sdOk =
      ({ st1 with lastError := "no imageUrl",
                  consecutiveErrors := st1.consecutiveErrors + 1 },
       { result := false, displayed := false, cacheWritten := false }) := by
  simp [updateContent, happi, hurl]

/-- C10 witness: an all-defaults JSON body (status defaulting to 200, no
image URL) is a successful call whose updateContent outcome is the
no-imageUrl failure. -/
theorem c10_empty_image_url_is_failure_witness :
    updateContent
      { currentState := .operational, apiKey := "k", friendlyId := "f", refreshRate := 1800,
        lastImageFilename := "", consecutiveErrors := 0, lastError := "",
        kvApiKey := "k", kvFriendlyId := "f", kvRefreshRate := 1800 }
      true "https://usetrmnl.com/api/display" (fun _ => 200)
      (some { status := none, image_url := none, url := none, image := none, filename := none,
              update_firmware := none, firmware_url := none, refresh_rate := none,
              reset_firmware := none, error := none })
      { httpCode := 200, contentLength := 1000, freeHeap := 200000, mallocOk := true,
        delivered := 1000 }
      true =
      ({ currentState := .operational, apiKey := "k", friendlyId := "f", refreshRate := 1800,
         lastImageFilename := "", consecutiveErrors := 1, lastError := "no imageUrl",
         kvApiKey := "k", kvFriendlyId := "f", kvRefreshRate := 1800 },
       { result := false, displayed := false, cacheWritten := false }) :=
  c10_empty_image_url_is_failure
    { currentState := .operational, apiKey := "k", friendlyId := "f", refreshRate := 1800,
      lastImageFilename := "", consecutiveErrors := 0, lastError := "",
      kvApiKey := "k", kvFriendlyId := "f", kvRefreshRate := 1800 }
    { currentState := .operational, apiKey := "k", friendlyId := "f", refreshRate := 1800,
      lastImageFilename := "", consecutiveErrors := 0, lastError := "",
      kvApiKey := "k", kvFriendlyId := "f", kvRefreshRate := 1800 }
    "https://usetrmnl.com/api/display" (fun _ => 200)
    (some { status := none, image_url := none, url := none, image := none, filename := none,
            update_firmware := none, firmware_url := none, refresh_rate := none,
            reset_firmware := none, error := none })
    { httpCode := 200, contentLength := 1000, freeHeap := 200000, mallocOk := true,
      delivered := 1000 }
    true
    { status := 200, imageUrl := "", filename := "", updateFirmware := false,
      firmwareUrl := "", refreshRate := 1800, resetFirmware := false, error := "" }
    (by decide) (by decide)

/-- A truncated transfer (known content length, fewer bytes delivered)
always makes downloadImageAutoAlloc report failure. -/
theorem downloadImageAutoAlloc_truncated (wifiOk : Bool) (imageUrl : String) (env : DlEnv)
    (hcl : 0 < env.contentLength) (hlt : (env.delivered : Int) < env.contentLength) :
    (downloadImageAutoAlloc wifiOk imageUrl env).success = false := by
  simp only [downloadImageAutoAlloc, Nat.min_def]
  split_ifs <;> first | rfl | omega

/-- C6: a fetch with declared content length L > 0 of which fewer than L
bytes arrive is a hard failure — downloadImageAutoAlloc returns false
and frees the partial buffer whenever it had allocated one, and
updateContent performs no display and no cache write and reports
failure. -/
theorem c6_truncated_transfer_discarded (st : ClientState) (endpointUrl : String)
    (responses : Nat → Int) (body : Option DisplayJson) (env : DlEnv) (sdOk : Bool)
    (wifiOk : Bool) (imageUrl : String)
    (hcl : 0 < env.contentLength) (hlt : (env.delivered : Int) < env.contentLength) :
    (downloadImageAutoAlloc wifiOk imageUrl env).success = false ∧
    (wifiOk = true → 0 < imageUrl.length → env.httpCode = 200 → env.mallocOk = true →
      downloadImageAutoAlloc wifiOk imageUrl env =
        { success := false, bufferReturned := false, freed := true,
          bytesRead := min env.delivered (allocSizeFinal env.contentLength env.freeHeap),
          allocSize := allocSizeFinal env.contentLength env.freeHeap }) ∧
    (updateContent st true endpointUrl responses body env sdOk).2.displayed = false ∧
    (updateContent st true endpointUrl responses body env sdOk).2.cacheWritten = false ∧
    (updateContent st true endpointUrl responses body env sdOk).2.result = false := by
  have hdl := fun w u => downloadImageAutoAlloc_truncated w u env hcl hlt
  have hfx : (updateContent st true endpointUrl responses body env sdOk).2 =
      { result := false, displayed := false, cacheWritten := false } := by
    rcases hapi : callDisplayAPI st true endpointUrl responses body with ⟨st1, respOpt, success⟩
    rcases respOpt with _ | resp
    · rcases success <;> simp [updateContent, hapi]
    · rcases success
      · simp [updateContent, hapi]
      · by_cases hiu : 0 < resp.imageUrl.length
        · simp [updateContent, hapi, hiu, hdl true resp.imageUrl]
        · simp [updateContent, hapi, hiu]
  refine ⟨hdl wifiOk imageUrl, ?_, by rw [hfx], by rw [hfx], by rw [hfx]⟩
  intro hw hurl hcode hm
  subst hw
  simp only [downloadImageAutoAlloc, Nat.min_def]
  split_ifs <;> first | rfl | omega | simp_all

/-- C6 witness: 1000 bytes declared, 800 delivered. -/
theorem c6_truncated_transfer_discarded_witness :
    (fun r : DlResult × UpdateFx =>
      r.1.success = false ∧ r.1.freed = true ∧
      r.2.displayed = false ∧ r.2.cacheWritten = false ∧ r.2.result = false)
    (downloadImageAutoAlloc true "https://img.example/i.png"
       { httpCode := 200, contentLength := 1000, freeHeap := 200000, mallocOk := true,
         delivered := 800 },
     (updateContent
       { currentState := .operational, apiKey := "k", friendlyId := "f", refreshRate := 1800,
         lastImageFilename := "", consecutiveErrors := 0, lastError := "",
         kvApiKey := "k", kvFriendlyId := "f", kvRefreshRate := 1800 }
       true "https://usetrmnl.com/api/display" (fun _ => 200)
       (some { status := some 200, image_url := some "https://img.example/i.png", url := none,
               image := none, filename := some "i.png", update_firmware := none,
               firmware_url := none, refresh_rate := none, reset_firmware := none,
               error := none })
       { httpCode := 200, contentLength := 1000, freeHeap := 200000, mallocOk := true,
         delivered := 800 }
       true).2) := by
  have h := c6_truncated_transfer_discarded
    { currentState := .operational, apiKey := "k", friendlyId := "f", refreshRate := 1800,
      lastImageFilename := "", consecutiveErrors := 0, lastError := "",
      kvApiKey := "k", kvFriendlyId := "f", kvRefreshRate := 1800 }
    "https://usetrmnl.com/api/display" (fun _ => 200)
    (some { status := some 200, image_url := some "https://img.example/i.png", url := none,
            image := none, filename := some "i.png", update_firmware := none,
            firmware_url := none, refresh_rate := none, reset_firmware := none,
            error := none })
    { httpCode := 200, contentLength := 1000, freeHeap := 200000, mallocOk := true,
      delivered := 800 }
    true true "https://img.example/i.png" (by decide) (by decide)
  refine ⟨h.1, ?_, h.2.2.1, h.2.2.2.1, h.2.2.2.2⟩
  rw [h.2.1 rfl (by decide) (by decide) (by decide)]

/-- C7: both API calls share the same retry policy — between 1 and 3
attempts; an attempt is followed by another only when its code was a
transport failure (negative) or a 5xx and not 200, so a 4xx is never
retried; the recorded backoff delays are 1000 ms times the attempt
index; three consecutive 503s yield exactly 3 attempts, the delays
1, 2, 3 seconds, and a failed call outcome for both callDisplayAPI and
callSetupAPI; and a 404 on the first attempt ends the loop after exactly
one attempt with no backoff. -/
theorem c7_retry_backoff_policy (r : Nat → Int) :
    httpRetrySetup r = httpRetryDisplay r ∧
    (1 ≤ (httpRetryDisplay r).2.1 ∧ (httpRetryDisplay r).2.1 ≤ 3) ∧
    (∀ k, 1 ≤ k → k < (httpRetryDisplay r).2.1 → (r k < 0 ∨ 500 ≤ r k) ∧ r k ≠ 200) ∧
    ((httpRetryDisplay r).2.2 =
      (List.range (httpRetryDisplay r).2.2.length).map fun i => 1000 * (i + 1)) ∧
    (r 1 = 503 → r 2 = 503 → r 3 = 503 →
      httpRetryDisplay r = (503, 3, [1000, 2000, 3000]) ∧
      (∀ st url body, (callDisplayAPI st true url r body).2.2 = false) ∧
      (∀ body, (callSetupAPI true r body).2 = false)) ∧
    (r 1 = 404 → httpRetryDisplay r = (404, 1, [])) := by
  have hnf : httpRetryDisplay r =
      (if r 1 = 200 then (r 1, 1, [])
       else if displayRetryable (r 1) then
         if r 2 = 200 then (r 2, 2, [1000])
         else if displayRetryable (r 2) then
           if r 3 = 200 then (r 3, 3, [1000, 2000])
           else if displayRetryable (r 3) then (r 3, 3, [1000, 2000, 3000])
           else (r 3, 3, [1000, 2000])
         else (r 2, 2, [1000])
       else (r 1, 1, [])) := httpRetryGo3 _ _
  refine ⟨httpRetrySetup_eq_display r, ?_, ?_, ?_, ?_, ?_⟩
  · rw [hnf]; split_ifs <;> exact ⟨by norm_num, by norm_num⟩
  · rw [hnf]
    split_ifs with h1 h2 h3 h4 h5 h6 <;> intro k hk1 hk2 <;> norm_num at hk2 <;>
      first
        | exact absurd hk1 (by omega)
        | (interval_cases k <;>
            first
              | exact ⟨(displayRetryable_iff _).mp h2, h1⟩
              | exact ⟨(displayRetryable_iff _).mp h4, h3⟩)
  · rw [hnf]; split_ifs <;> rfl
  · intro ha hb hc
    have hfinal : httpRetryDisplay r = (503, 3, [1000, 2000, 3000]) := by
      rw [hnf, ha, hb, hc]; norm_num [displayRetryable]
    refine ⟨hfinal, ?_, ?_⟩
    · intro st url body
      simp [callDisplayAPI, hfinal]
    · intro body
      simp [callSetupAPI, httpRetrySetup_eq_display r, hfinal]
  · intro h
    rw [hnf, h]; norm_num [displayRetryable]

/-- C7 witness: three consecutive 503s and a first-attempt 404. -/
theorem c7_retry_backoff_policy_witness :
    httpRetryDisplay (fun _ => 503) = (503, 3, [1000, 2000, 3000]) ∧
    httpRetryDisplay (fun _ => 404) = (404, 1, []) :=
  ⟨((c7_retry_backoff_policy (fun _ => 503)).2.2.2.2.1 rfl rfl rfl).1,
   (c7_retry_backoff_policy (fun _ => 404)).2.2.2.2.2 rfl⟩

/-- C9 witness: the raw route at exactly 15000 bytes and the PNG route at
20 bytes. -/
theorem c9_raw_vs_png_routing_witness :
    displayImage false 15000 true 100 true = DisplayOutcome.rawBitmap ∧
    (displayImage false 20 true 100 true = DisplayOutcome.decodeFailedPlaceholder ∨
     displayImage false 20 true 100 true = DisplayOutcome.pngRendered ∨
     displayImage false 20 true 100 true = DisplayOutcome.pngAborted) :=
  ⟨(c9_raw_vs_png_routing 15000 100 true true).1 (by decide),
   (c9_raw_vs_png_routing 20 100 true true).2.1 (by decide) (by decide)⟩

end Paperdink
